import Mathlib

set_option maxHeartbeats 1000000
set_option autoImplicit false

/-! Shallow embedding of src/ws/cockpitauth.c, the authentication manager of
the cockpit web gateway.  GHashTable instances are modelled as association
lists with unique keys, GLib base64 (an external primitive the spec assumes
available) as a strict RFC 4648 codec, and randomness, nonces, configuration
lookups and helper replies as explicit parameters.  All functions are
executable. -/

/-- Header maps and other string-keyed GHashTables as association lists. -/
abbrev Headers := List (String × String)

/-- Lookup in a string-keyed table (g_hash_table_lookup): first matching key. -/
def hLookup {α : Type} : List (String × α) → String → Option α
  | [], _ => none
  | (k, v) :: rest, key => if k = key then some v else hLookup rest key

/-- Removal from a string-keyed table (g_hash_table_remove / g_hash_table_steal). -/
def hErase {α : Type} : List (String × α) → String → List (String × α)
  | [], _ => []
  | (k, v) :: rest, key => if k = key then hErase rest key else (k, v) :: hErase rest key

/-- Insert-or-replace into a string-keyed table (g_hash_table_insert / replace). -/
def hInsert {α : Type} (l : List (String × α)) (key : String) (v : α) : List (String × α) :=
  (key, v) :: hErase l key

/-- ASCII lowercasing of one character (g_ascii_tolower). -/
def asciiLower (c : Char) : Char :=
  if 'A' ≤ c ∧ c ≤ 'Z' then Char.ofNat (c.toNat + 32) else c

/-- Value of one base64 alphabet character, none outside the alphabet. -/
def b64Val (c : Char) : Option Nat :=
  if 'A' ≤ c ∧ c ≤ 'Z' then some (c.toNat - 65)
  else if 'a' ≤ c ∧ c ≤ 'z' then some (c.toNat - 97 + 26)
  else if '0' ≤ c ∧ c ≤ '9' then some (c.toNat - 48 + 52)
  else if c = '+' then some 62
  else if c = '/' then some 63
  else none

/-- Strict RFC 4648 base64 decoding to bytes.  Base64 is an external
primitive for cockpitauth.c (GLib); the spec assumes standard base64, so the
model rejects any input that is not well-formed groups of four. -/
def base64DecodeList : List Char → Option (List Nat)
  | [] => some []
  | a :: b :: c :: d :: rest =>
    match b64Val a, b64Val b with
    | some va, some vb =>
      if c = '=' then
        if d = '=' ∧ rest = [] then some [va * 4 + vb / 16] else none
      else
        match b64Val c with
        | some vc =>
          if d = '=' then
            if rest = [] then some [va * 4 + vb / 16, vb % 16 * 16 + vc / 4] else none
          else
            match b64Val d with
            | some vd =>
              match base64DecodeList rest with
              | some tail =>
                some ((va * 4 + vb / 16) :: (vb % 16 * 16 + vc / 4) :: (vc % 4 * 64 + vd) :: tail)
              | none => none
            | none => none
        | none => none
    | _, _ => none
  | _ => none

/-- Base64 decoding of a string (g_base64_decode_inplace, strict model). -/
def base64Decode (s : String) : Option (List Nat) :=
  base64DecodeList s.toList

/-- Character of one 6-bit value in the base64 alphabet. -/
def b64Chr (n : Nat) : Char :=
  if n < 26 then Char.ofNat (65 + n)
  else if n < 52 then Char.ofNat (97 + (n - 26))
  else if n < 62 then Char.ofNat (48 + (n - 52))
  else if n = 62 then '+'
  else '/'

/-- RFC 4648 base64 encoding of bytes, with padding. -/
def base64EncodeList : List Nat → List Char
  | [] => []
  | [x] => [b64Chr (x / 4), b64Chr (x % 4 * 16), '=', '=']
  | [x, y] => [b64Chr (x / 4), b64Chr (x % 4 * 16 + y / 16), b64Chr (y % 16 * 4), '=']
  | x :: y :: z :: rest =>
    b64Chr (x / 4) :: b64Chr (x % 4 * 16 + y / 16) :: b64Chr (y % 16 * 4 + z / 64) ::
      b64Chr (z % 64) :: base64EncodeList rest

/-- Base64 encoding of a string (g_base64_encode over its bytes). -/
def g_base64_encode (s : String) : String :=
  String.mk (base64EncodeList (s.toList.map Char.toNat))

/-- Split a character list at every space, empty tokens included. -/
def splitSpaces : List Char → List (List Char)
  | [] => [[]]
  | c :: rest =>
    if c = ' ' then [] :: splitSpaces rest
    else
      match splitSpaces rest with
      | t :: ts => (c :: t) :: ts
      | [] => [[c]]

/-- Rejoin tokens with single spaces (the delimiter of the split). -/
def joinSpaces : List (List Char) → List Char
  | [] => []
  | [t] => t
  | t :: ts => t ++ ' ' :: joinSpaces ts

/-- GLib g_strsplit with a single-space delimiter and a token limit: every
delimiter occurrence splits, empty tokens included; once the limit is
reached the remainder, delimiters included, is the final token; the empty
string yields no tokens. -/
def g_strsplit (s : String) (maxTokens : Nat) : List String :=
  if s = "" then []
  else
    let parts := splitSpaces s.toList
    let limited :=
      if parts.length ≤ maxTokens then parts
      else parts.take (maxTokens - 1) ++ [joinSpaces (parts.drop (maxTokens - 1))]
    limited.map String.mk

/-- Which login method produced a pending dialogue: the tag field of AuthData
(cockpit_auth_spawn_login_async, cockpit_auth_remote_login_async, or the
none method); login_finish dispatches its parser on it. -/
inductive MethodTag where
  | spawn
  | remote
  | noneLogin
  deriving DecidableEq, Repr

/-- Per-attempt dialogue state (struct AuthData), reduced to the fields the
claims are about: the pending-table key and the method tag. -/
structure AuthData where
  id : String
  tag : MethodTag
  deriving DecidableEq, Repr

/-- Credentials as far as the claims consume them (struct CockpitCreds fields
used by login_finish: user and application). -/
structure CockpitCreds where
  user : String
  application : String
  deriving DecidableEq, Repr

/-- One authenticated session (struct CockpitAuthenticated), reduced to the
fields the claims are about. -/
structure CockpitAuthenticated where
  cookie : String
  user : String
  application : String
  deriving DecidableEq, Repr

/-- The manager state (struct CockpitAuth): admission counters, loopback
flag, the cookie-keyed session table and the id-keyed pending table. -/
structure CockpitAuth where
  startups : Nat
  max_startups : Nat
  max_startups_begin : Nat
  max_startups_rate : Nat
  login_loopback : Bool
  authenticated : List (String × CockpitAuthenticated)
  authentication_pending : List (String × AuthData)
  deriving DecidableEq, Repr

/-- Admission check can_start_auth (lines 1555..1586): the OpenSSH-style
probabilistic startup throttle.  The random draw r from [0,100) is passed
explicitly; the C code returns FALSE iff r < p. -/
def can_start_auth (self : CockpitAuth) (r : Nat) : Bool :=
  if self.max_startups = 0 then true
  else if self.startups ≤ self.max_startups_begin then true
  else if self.max_startups < self.startups then false
  else if self.max_startups_rate = 100 then false
  else
    decide ((100 - self.max_startups_rate) * (self.startups - self.max_startups_begin)
        / (self.max_startups - self.max_startups_begin) + self.max_startups_rate ≤ r)

/-- Entry point cockpit_auth_login_async (lines 1588..1617): increment the
startups counter, then consult admission on the incremented state; the
returned flag records whether the attempt was dispatched to a method (true)
or dropped with the Failed("Connection closed by host") error (false). -/
def cockpit_auth_login_async (self : CockpitAuth) (r : Nat) : CockpitAuth × Bool :=
  let self' := { self with startups := self.startups + 1 }
  (self', can_start_auth self' r)

/-- Completion cockpit_auth_login_finish (lines 1674..1741).  The method
result is abstracted to the credentials the class finish callback produced
(none on error or prompt), the nonce to the id argument, and the
COCKPIT_AUTH_COOKIE_INSECURE flag to cookie_insecure.  Returns the new
state, the updated out-headers table (when one was supplied) and the cookie
inserted into the session table (on success). -/
def cockpit_auth_login_finish (self : CockpitAuth) (creds : Option CockpitCreds)
    (id : String) (cookie_insecure : Bool) (out_headers : Option Headers) :
    CockpitAuth × Option Headers × Option String :=
  let self' := { self with startups := self.startups - 1 }
  match creds with
  | none => (self', out_headers, none)
  | some c =>
    let cookie := "v=2;k=" ++ id
    let entry : CockpitAuthenticated :=
      { cookie := cookie, user := c.user, application := c.application }
    let self'' := { self' with authenticated := hInsert self'.authenticated cookie entry }
    let out' := match out_headers with
      | none => none
      | some oh =>
        some (hInsert oh "Set-Cookie"
          (c.application ++ "=" ++ g_base64_encode cookie ++ "; Path=/; " ++
            (if cookie_insecure then "" else " Secure;") ++ " HttpOnly"))
    (self'', out', some cookie)

/-- Session removal cockpit_authenticated_destroy (lines 91..96): remove the
session with the given cookie from the authenticated table. -/
def cockpit_authenticated_destroy (self : CockpitAuth) (cookie : String) : CockpitAuth :=
  { self with authenticated := hErase self.authenticated cookie }

/-- Value computed by cockpit_auth_parse_authorization_type (lines 359..383):
skip leading spaces of the Authorization value, then the first
space-delimited token lowercased; none when the header is absent or no
space follows the token. -/
def parse_authorization_type_value (headers : Headers) : Option String :=
  match hLookup headers "Authorization" with
  | none => none
  | some line =>
    let l := line.toList.dropWhile (· == ' ')
    match l.dropWhile (· != ' ') with
    | [] => none
    | _ :: _ => some (String.mk ((l.takeWhile (· != ' ')).map asciiLower))

/-- Function cockpit_auth_parse_authorization_type: it performs only lookups
on the header table (g_hash_table_lookup_extended and string copies), so in
the state-passing embedding it returns the table it received. -/
def cockpit_auth_parse_authorization_type (headers : Headers) : Headers × Option String :=
  (headers, parse_authorization_type_value headers)

/-- Payload location inside an Authorization value (lines 406..414): skip
leading spaces, skip the type token up to the next space, fail when that
space is missing, then skip the spaces following it. -/
def authContents (line : List Char) : Option (List Char) :=
  match (line.dropWhile (· == ' ')).dropWhile (· != ' ') with
  | [] => none
  | rest => some (rest.dropWhile (· == ' '))

/-- Function cockpit_auth_parse_authorization (lines 389..433): steal the
Authorization entry from the table and return the payload after the type
token, base64-decoded when requested; none when the header is absent, no
space delimiter exists, or decoding fails. -/
def cockpit_auth_parse_authorization (headers : Headers) (base64_decode : Bool) :
    Headers × Option (List Nat) :=
  match hLookup headers "Authorization" with
  | none => (headers, none)
  | some line =>
    match authContents line.toList with
    | none => (hErase headers "Authorization", none)
    | some contents =>
      if base64_decode then
        (hErase headers "Authorization", base64DecodeList contents)
      else
        (hErase headers "Authorization", some (contents.map Char.toNat))

/-- Function auth_parse_application (lines 581..610): for a path beginning
with '/', the first segment when the remainder starts with "cockpit+" and a
ninth character exists (the character right after the '+' is not the string
terminator), and the literal "cockpit" otherwise. -/
def auth_parse_application (path : String) : Option String :=
  match path.toList with
  | '/' :: p =>
    if p.take 8 = "cockpit+".toList ∧ 8 < p.length then
      some (String.mk (p.takeWhile (· != '/')))
    else
      some "cockpit"
  | _ => none

/-- Public wrapper cockpit_auth_parse_application (lines 1790..1800): same
value as auth_parse_application, copied into fresh memory. -/
def cockpit_auth_parse_application (path : String) : Option String :=
  auth_parse_application path

/-- One member of the helper's JSON reply as cockpit_json_get_string sees
it: absent (NULL out-value), present but not a string (getter fails), or a
string. -/
inductive JMember where
  | absent
  | notString
  | str (s : String)
  deriving DecidableEq, Repr

/-- String carried by a member, "(null)" when absent, matching the glibc
rendering of a NULL argument in g_strdup_printf. -/
def jmemberString : JMember → String
  | JMember.str s => s
  | _ => "(null)"

/-- Fields of the parsed helper reply object that
parse_cockpit_spawn_results reads. -/
structure HelperResult where
  error : JMember
  message : JMember
  prompt : JMember
  user : JMember
  deriving DecidableEq, Repr

/-- Outcome of cockpit_json_parse_object on the raw helper reply: no data or
an unparseable reply, a reply that is not UTF-8, or a parsed object. -/
inductive HelperResponse where
  | noData
  | notUtf8
  | parseFail
  | ok (r : HelperResult)
  deriving DecidableEq, Repr

/-- Error kinds surfaced by login_finish, with the success and prompt
outcomes (COCKPIT_ERROR codes and G_IO_ERROR_INVALID_DATA). -/
inductive AuthResult where
  | invalidData (message : String)
  | authenticationFailed (message : String)
  | permissionDenied (message : String)
  | failed (message : String)
  | promptNeeded (prompt : String)
  | success (user : String)
  deriving DecidableEq, Repr

/-- Discriminator for the Failed error kind. -/
def AuthResult.isFailed : AuthResult → Bool
  | AuthResult.failed _ => true
  | _ => false

/-- Function parse_cockpit_spawn_results (lines 653..765) on the login path,
where the prompt_data out-parameter is supplied.  Arguments: the dialogue's
auth type, the current process-wide gssapi_not_avail flag, and the parse
outcome of the helper reply.  Returns the outcome and the new value of
gssapi_not_avail. -/
def parse_cockpit_spawn_results (ty : String) (gssapi_na : Bool) (resp : HelperResponse) :
    AuthResult × Bool :=
  match resp with
  | HelperResponse.noData =>
    (AuthResult.invalidData "Authentication failed: no results", gssapi_na)
  | HelperResponse.parseFail =>
    (AuthResult.invalidData "Authentication failed: no results", gssapi_na)
  | HelperResponse.notUtf8 =>
    (AuthResult.invalidData "Login user name is not UTF8 encoded", gssapi_na)
  | HelperResponse.ok r =>
    if r.error = JMember.notString ∨ r.message = JMember.notString ∨
        r.prompt = JMember.notString then
      (AuthResult.invalidData "Authentication failed: invalid results", gssapi_na)
    else
      match r.prompt with
      | JMember.str p => (AuthResult.promptNeeded p, gssapi_na)
      | _ =>
        match r.error with
        | JMember.str e =>
          if e = "authentication-unavailable" ∧ ty = "negotiate" then
            (AuthResult.authenticationFailed "Negotiate authentication not available", true)
          else if e = "authentication-failed" ∨ e = "authentication-unavailable" then
            (AuthResult.authenticationFailed "Authentication failed", gssapi_na)
          else if e = "permission-denied" then
            (AuthResult.permissionDenied "Permission denied", gssapi_na)
          else
            (AuthResult.failed
              ("Authentication failed: " ++ e ++ ": " ++ jmemberString r.message), gssapi_na)
        | _ =>
          match r.user with
          | JMember.str u => (AuthResult.success u, gssapi_na)
          | _ => (AuthResult.invalidData "Authentication failed: missing user", gssapi_na)

/-- Input selection of cockpit_auth_spawn_login_async (lines 824..826): the
payload extracted from the Authorization header, or, when none could be
produced, an empty payload for type negotiate while GSSAPI is not known
unavailable; the helper is spawned iff the result is some payload. -/
def spawn_login_input (gssapi_na : Bool) (ty : String) (headers : Headers)
    (decode_header : Bool) : Headers × Option (List Nat) :=
  let res := cockpit_auth_parse_authorization headers decode_header
  match res.2 with
  | some i => (res.1, some i)
  | none =>
    if gssapi_na = false ∧ ty = "negotiate" then (res.1, some []) else (res.1, none)

/-- Outcome of the resume dispatch: the fixed Invalid-resume-token failure,
or the dialogue resumed with its method tag and the decoded payload fed
into its auth pipe. -/
inductive ResumeOutcome where
  | invalidToken
  | resumed (tag : MethodTag) (payload : List Nat)
  deriving DecidableEq, Repr

/-- Function cockpit_auth_resume_async (lines 1278..1339): split the raw
Authorization value into at most three space-separated parts, look the id
up in the pending table, remove it, base64-decode the payload in place and
feed it into the dialogue's auth pipe; any failure yields the
Invalid-resume-token error. -/
def cockpit_auth_resume_async (self : CockpitAuth) (headers : Headers) :
    CockpitAuth × ResumeOutcome :=
  let parts := match hLookup headers "Authorization" with
    | none => []
    | some h => g_strsplit h 3
  match parts with
  | [_, p1, p2] =>
    match hLookup self.authentication_pending p1 with
    | none => (self, ResumeOutcome.invalidToken)
    | some ad =>
      let self' :=
        { self with authentication_pending := hErase self.authentication_pending p1 }
      match base64Decode p2 with
      | none => (self', ResumeOutcome.invalidToken)
      | some bytes =>
        if bytes.length < 1 then (self', ResumeOutcome.invalidToken)
        else (self', ResumeOutcome.resumed ad.tag bytes)
  | _ => (self, ResumeOutcome.invalidToken)

/-- Method chooser action_for_type (lines 1341..1367).  The configuration
lookup cockpit_conf_string(type, "action") is the conf argument. -/
def action_for_type (conf : String → Option String) (ty : String) (force_ssh : Bool) :
    String :=
  if ty = "x-login-reply" then "x-login-reply"
  else if force_ssh = true ∧ ty = "basic" then "remote-login-ssh"
  else
    match conf ty with
    | some a => a
    | none =>
      if ty = "basic" ∨ ty = "negotiate" then "spawn-login-with-decoded"
      else "none"

/-- Type selection in cockpit_auth_choose_login_async (lines 1382..1384):
the parsed Authorization type, defaulting to "negotiate" when none could be
parsed. -/
def cockpit_auth_choose_login_type (headers : Headers) : String :=
  match (cockpit_auth_parse_authorization_type headers).2 with
  | none => "negotiate"
  | some t => t

/-- Admission configuration reachable through cockpit_auth_new with
MaxStartups "0": throttling disabled with a hard limit of zero. -/
def throttleDisabledExample : CockpitAuth :=
  { startups := 1, max_startups := 0, max_startups_begin := 0, max_startups_rate := 100,
    login_loopback := false, authenticated := [], authentication_pending := [] }

/-- Manager state with one pending dialogue under id "id1", produced by the
spawn method, as after a prompt was issued. -/
def resumePendingExample : CockpitAuth :=
  { startups := 1, max_startups := 10, max_startups_begin := 10, max_startups_rate := 100,
    login_loopback := false, authenticated := [],
    authentication_pending := [("id1", { id := "id1", tag := MethodTag.spawn })] }

/-! Helper lemmas about the association-table and character-list operations. -/

theorem hLookup_hInsert_self {α : Type} (l : List (String × α)) (k : String) (v : α) :
    hLookup (hInsert l k v) k = some v := by
  simp [hInsert, hLookup]

theorem hLookup_hErase_self {α : Type} (l : List (String × α)) (k : String) :
    hLookup (hErase l k) k = none := by
  induction l with
  | nil => rfl
  | cons p rest ih =>
    obtain ⟨a, b⟩ := p
    by_cases ha : a = k
    · simpa [hErase, ha] using ih
    · simp [hErase, hLookup, ha, ih]

theorem hLookup_hErase_ne {α : Type} (l : List (String × α)) (k k' : String) (h : k' ≠ k) :
    hLookup (hErase l k) k' = hLookup l k' := by
  induction l with
  | nil => rfl
  | cons p rest ih =>
    obtain ⟨a, b⟩ := p
    by_cases ha : a = k
    · subst ha
      have : a ≠ k' := fun hc => h (hc ▸ rfl)
      simp [hErase, hLookup, this, ih]
    · by_cases hk : a = k'
      · simp [hErase, hLookup, ha, hk, h]
      · simp [hErase, hLookup, ha, hk, ih]

theorem dropWhile_sat_append {α : Type} (p : α → Bool) (l1 l2 : List α)
    (h : ∀ c ∈ l1, p c = true) : (l1 ++ l2).dropWhile p = l2.dropWhile p := by
  induction l1 with
  | nil => rfl
  | cons a t ih =>
    have ha : p a = true := h a (List.mem_cons_self a t)
    simp only [List.cons_append, List.dropWhile_cons, ha, if_true]
    exact ih (fun c hc => h c (List.mem_cons_of_mem a hc))

theorem dropWhile_sat_nil {α : Type} (p : α → Bool) (l : List α)
    (h : ∀ c ∈ l, p c = true) : l.dropWhile p = [] := by
  have := dropWhile_sat_append p l [] h
  simpa using this

theorem dropWhile_middle {α : Type} (p : α → Bool) (l1 l2 : List α) (b : α)
    (h1 : ∀ c ∈ l1, p c = true) (hb : p b = false) :
    (l1 ++ b :: l2).dropWhile p = b :: l2 := by
  rw [dropWhile_sat_append p l1 (b :: l2) h1]
  simp [List.dropWhile_cons, hb]

theorem takeWhile_middle {α : Type} (p : α → Bool) (l1 l2 : List α) (b : α)
    (h1 : ∀ c ∈ l1, p c = true) (hb : p b = false) :
    (l1 ++ b :: l2).takeWhile p = l1 := by
  induction l1 with
  | nil => simp [List.takeWhile_cons, hb]
  | cons a t ih =>
    have ha : p a = true := h1 a (List.mem_cons_self a t)
    simp only [List.cons_append, List.takeWhile_cons, ha, if_true]
    rw [ih (fun c hc => h1 c (List.mem_cons_of_mem a hc))]

theorem dropWhile_head_false {α : Type} (p : α → Bool) (l : List α)
    (h : ∀ ch tl, l = ch :: tl → p ch = false) : l.dropWhile p = l := by
  cases l with
  | nil => rfl
  | cons a t => simp [List.dropWhile_cons, h a t rfl]

/-! Claim C1: the admission check can_start_auth.  The claim as stated fails
when max_startups is 0 (throttling disabled): then every attempt is
admitted, even with startups above the hard limit, and the configuration
0:100:0 with begin = max = 0 is reachable through MaxStartups "0". -/

/-- Claim C1 counterexample: with max_startups = 0 and begin = max, an
attempt with startups above the hard limit is still admitted, so the
monotone clause of the claim is false for this configuration. -/
theorem can_start_auth_claim_counterexample :
    throttleDisabledExample.max_startups_begin ≤ throttleDisabledExample.max_startups ∧
    throttleDisabledExample.max_startups < throttleDisabledExample.startups ∧
    can_start_auth throttleDisabledExample 0 = true := by
  decide

/-- Claim C1 (amended): can_start_auth returns true when max_startups is 0;
true when startups is at most max_startups_begin; when throttling is
enabled (max_startups not 0) and begin is at most max, false when startups
exceeds max_startups; false when rate is 100 with startups above the soft
and at most the hard limit; and otherwise admits iff the random draw r from
[0,100) is at least p = (100 - rate)(startups - begin)/(max - begin) + rate. -/
theorem can_start_auth_amended (self : CockpitAuth) (r : Nat) :
    (self.max_startups = 0 → can_start_auth self r = true) ∧
    (self.startups ≤ self.max_startups_begin → can_start_auth self r = true) ∧
    (self.max_startups ≠ 0 → self.max_startups_begin ≤ self.max_startups →
      self.max_startups < self.startups → can_start_auth self r = false) ∧
    (self.max_startups ≠ 0 → self.max_startups_begin < self.startups →
      self.startups ≤ self.max_startups → self.max_startups_rate = 100 →
      can_start_auth self r = false) ∧
    (self.max_startups ≠ 0 → self.max_startups_begin < self.startups →
      self.startups ≤ self.max_startups → self.max_startups_rate ≠ 100 →
      (can_start_auth self r = true ↔
        (100 - self.max_startups_rate) * (self.startups - self.max_startups_begin)
          / (self.max_startups - self.max_startups_begin) + self.max_startups_rate ≤ r)) := by
  refine ⟨?_, ?_, ?_, ?_, ?_⟩
  · intro h
    simp [can_start_auth, h]
  · intro h
    by_cases h0 : self.max_startups = 0 <;> simp [can_start_auth, h, h0]
  · intro h0 h1 h2
    have hb : ¬ self.startups ≤ self.max_startups_begin := by omega
    simp [can_start_auth, h0, hb, h2]
  · intro h0 h1 h2 h3
    have hb : ¬ self.startups ≤ self.max_startups_begin := by omega
    have hm : ¬ self.max_startups < self.startups := by omega
    simp [can_start_auth, h0, hb, hm, h3]
  · intro h0 h1 h2 h3
    have hb : ¬ self.startups ≤ self.max_startups_begin := by omega
    have hm : ¬ self.max_startups < self.startups := by omega
    simp [can_start_auth, h0, hb, hm, h3]

/-- Claim C1 witness: the amended theorem applied to concrete
configurations, one per branch of the check. -/
theorem can_start_auth_amended_witness :
    can_start_auth throttleDisabledExample 99 = true ∧
    can_start_auth { throttleDisabledExample with startups := 3, max_startups := 10, max_startups_begin := 5, max_startups_rate := 30 } 0 = true ∧
    can_start_auth { throttleDisabledExample with startups := 11, max_startups := 10, max_startups_begin := 5, max_startups_rate := 30 } 99 = false ∧
    can_start_auth { throttleDisabledExample with startups := 7, max_startups := 10, max_startups_begin := 5, max_startups_rate := 100 } 0 = false ∧
    can_start_auth { throttleDisabledExample with startups := 7, max_startups := 10, max_startups_begin := 5, max_startups_rate := 30 } 58 = true ∧
    can_start_auth { throttleDisabledExample with startups := 7, max_startups := 10, max_startups_begin := 5, max_startups_rate := 30 } 57 = false := by
  refine ⟨?_, ?_, ?_, ?_, ?_, ?_⟩
  · exact (can_start_auth_amended throttleDisabledExample 99).1 (by decide)
  · exact (can_start_auth_amended _ 0).2.1 (by decide)
  · exact (can_start_auth_amended _ 99).2.2.1 (by decide) (by decide) (by decide)
  · exact (can_start_auth_amended _ 0).2.2.2.1 (by decide) (by decide) (by decide) (by decide)
  · exact ((can_start_auth_amended _ 58).2.2.2.2 (by decide) (by decide) (by decide)
      (by decide)).mpr (by decide)
  · have h5 := (can_start_auth_amended { throttleDisabledExample with startups := 7, max_startups := 10, max_startups_begin := 5, max_startups_rate := 30 } 57).2.2.2.2
      (by decide) (by decide) (by decide) (by decide)
    exact Bool.eq_false_iff.mpr (fun hb => absurd (h5.mp hb) (by decide))

/-! Claim C2: successful login_finish inserts a session keyed by the cookie
and emits the Set-Cookie header; after removal the cookie is absent. -/

/-- Claim C2: whenever login_finish returns credentials, the returned cookie
has the form v=2;k=(nonce), a session carrying those credentials is stored
in the authenticated table under that cookie, removing the session makes
the cookie absent again, and a supplied out-headers table receives the
Set-Cookie header application=base64(cookie); Path=/; [Secure;] HttpOnly,
Secure included unless the COOKIE_INSECURE flag was passed. -/
theorem cockpit_auth_login_finish_claim (self : CockpitAuth) (c : CockpitCreds)
    (id : String) (insecure : Bool) (oh : Headers) :
    (cockpit_auth_login_finish self (some c) id insecure (some oh)).2.2 =
      some ("v=2;k=" ++ id) ∧
    hLookup (cockpit_auth_login_finish self (some c) id insecure (some oh)).1.authenticated
        ("v=2;k=" ++ id) =
      some { cookie := "v=2;k=" ++ id, user := c.user, application := c.application } ∧
    hLookup (cockpit_authenticated_destroy
        (cockpit_auth_login_finish self (some c) id insecure (some oh)).1
        ("v=2;k=" ++ id)).authenticated ("v=2;k=" ++ id) = none ∧
    hLookup (((cockpit_auth_login_finish self (some c) id insecure (some oh)).2.1).getD [])
        "Set-Cookie" =
      some (c.application ++ "=" ++ g_base64_encode ("v=2;k=" ++ id) ++ "; Path=/; " ++
        (if insecure then "" else " Secure;") ++ " HttpOnly") := by
  refine ⟨rfl, ?_, ?_, ?_⟩
  · simp [cockpit_auth_login_finish, hLookup_hInsert_self]
  · simp [cockpit_auth_login_finish, cockpit_authenticated_destroy, hInsert,
      hLookup_hErase_self]
  · simp [cockpit_auth_login_finish, hLookup_hInsert_self]

/-! Claim C3: the startups counter is balanced across a login_begin and
login_finish pair, whatever the outcome. -/

/-- Claim C3: login_async increments startups exactly once and consults
admission on the incremented state; login_finish decrements it exactly
once, for every outcome (credentials or none, with or without out-headers),
so the counter returns to its pre-call value. -/
theorem login_async_finish_startups_claim (self : CockpitAuth) (r : Nat)
    (creds : Option CockpitCreds) (id : String) (insecure : Bool) (oh : Option Headers) :
    ((cockpit_auth_login_async self r).1).startups = self.startups + 1 ∧
    (cockpit_auth_login_async self r).2 =
      can_start_auth { self with startups := self.startups + 1 } r ∧
    ((cockpit_auth_login_finish (cockpit_auth_login_async self r).1 creds id insecure
        oh).1).startups = self.startups := by
  refine ⟨rfl, rfl, ?_⟩
  cases creds <;> simp [cockpit_auth_login_async, cockpit_auth_login_finish]

/-! Claim C4: the method chooser action_for_type, first match winning, and
the default "negotiate" type when no Authorization header exists. -/

/-- Claim C4: action_for_type applies its rules with first match winning:
x-login-reply maps to itself; the loopback flag with type basic maps to
remote-login-ssh; a configured action maps to its value; basic or negotiate
map to spawn-login-with-decoded; anything else maps to none.  When the
request carries no Authorization header, the chooser treats the type as
negotiate. -/
theorem action_for_type_claim (conf : String → Option String) (ty : String)
    (f : Bool) (headers : Headers) :
    (ty = "x-login-reply" → action_for_type conf ty f = "x-login-reply") ∧
    (f = true → ty = "basic" → action_for_type conf ty f = "remote-login-ssh") ∧
    (∀ a, ty ≠ "x-login-reply" → ¬(f = true ∧ ty = "basic") → conf ty = some a →
      action_for_type conf ty f = a) ∧
    (ty ≠ "x-login-reply" → ¬(f = true ∧ ty = "basic") → conf ty = none →
      ty = "basic" ∨ ty = "negotiate" → action_for_type conf ty f = "spawn-login-with-decoded") ∧
    (ty ≠ "x-login-reply" → ¬(f = true ∧ ty = "basic") → conf ty = none →
      ty ≠ "basic" → ty ≠ "negotiate" → action_for_type conf ty f = "none") ∧
    (hLookup headers "Authorization" = none →
      cockpit_auth_choose_login_type headers = "negotiate") := by
  refine ⟨?_, ?_, ?_, ?_, ?_, ?_⟩
  · intro h
    simp [action_for_type, h]
  · intro hf h
    subst hf h
    simp [action_for_type]
  · intro a h1 h2 h3
    simp [action_for_type, h1, h2, h3]
  · intro h1 h2 h3 h4
    rcases h4 with h4 | h4 <;> subst h4
    · have hf : f = false := by
        cases f
        · rfl
        · exact absurd ⟨rfl, rfl⟩ h2
      subst hf
      simp [action_for_type, h3]
    · simp [action_for_type, h3]
  · intro h1 h2 h3 h4 h5
    simp [action_for_type, h1, h2, h3, h4, h5]
  · intro h
    simp [cockpit_auth_choose_login_type, cockpit_auth_parse_authorization_type,
      parse_authorization_type_value, h]

/-- Claim C4 witness: each chooser rule applied at a concrete type. -/
theorem action_for_type_claim_witness :
    action_for_type (fun _ => some "remote-login-ssh") "x-login-reply" true = "x-login-reply" ∧
    action_for_type (fun _ => some "none") "basic" true = "remote-login-ssh" ∧
    action_for_type (fun _ => some "spawn-login-with-header") "tls-cert" false =
      "spawn-login-with-header" ∧
    action_for_type (fun _ => none) "negotiate" false = "spawn-login-with-decoded" ∧
    action_for_type (fun _ => none) "bearer" true = "none" ∧
    cockpit_auth_choose_login_type [("Host", "example.com")] = "negotiate" := by
  refine ⟨?_, ?_, ?_, ?_, ?_, ?_⟩
  · exact (action_for_type_claim _ _ true []).1 rfl
  · exact (action_for_type_claim _ _ true []).2.1 rfl rfl
  · exact (action_for_type_claim _ "tls-cert" false []).2.2.1 "spawn-login-with-header"
      (by decide) (by simp) rfl
  · exact (action_for_type_claim _ "negotiate" false []).2.2.2.1 (by decide) (by simp) rfl
      (Or.inr rfl)
  · exact (action_for_type_claim _ "bearer" true []).2.2.2.2.1 (by decide)
      (by simp) rfl (by decide) (by decide)
  · exact (action_for_type_claim (fun _ => none) "x" false _).2.2.2.2.2 (by decide)

/-! Claim C9: cockpit_auth_parse_authorization_type leaves the header map
unchanged and returns the first space-delimited token after leading
spaces, lowercased. -/

/-- Claim C9: the type parser returns the header table unchanged (the C
function only performs lookups), and whenever the Authorization value
decomposes into leading spaces, a non-empty space-free token and a space
delimiter, it returns that token ASCII-lowercased. -/
theorem cockpit_auth_parse_authorization_type_claim (headers : Headers) :
    (cockpit_auth_parse_authorization_type headers).1 = headers ∧
    (∀ (line : String) (sp tok rest : List Char),
      hLookup headers "Authorization" = some line →
      line.toList = sp ++ tok ++ ' ' :: rest →
      (∀ c ∈ sp, c = ' ') → tok ≠ [] → (∀ c ∈ tok, c ≠ ' ') →
      (cockpit_auth_parse_authorization_type headers).2 =
        some (String.mk (tok.map asciiLower))) := by
  refine ⟨rfl, ?_⟩
  intro line sp tok rest hlk hdec hsp htok hns
  cases tok with
  | nil => exact absurd rfl htok
  | cons t0 tok' =>
    have hsp' : ∀ c ∈ sp, (c == ' ') = true := fun c hc => by simp [hsp c hc]
    have ht0 : (t0 == ' ') = false := by
      simpa using hns t0 (List.mem_cons_self t0 tok')
    have htokAll : ∀ c ∈ t0 :: tok', (c != ' ') = true := fun c hc => by
      simpa using hns c hc
    have e0 : line.toList = sp ++ ((t0 :: tok') ++ ' ' :: rest) := by
      rw [hdec, List.append_assoc]
    have e1 : line.toList.dropWhile (· == ' ') = (t0 :: tok') ++ ' ' :: rest := by
      rw [e0, dropWhile_sat_append _ sp _ hsp']
      simp [List.dropWhile_cons, ht0]
    have e2 : ((t0 :: tok') ++ ' ' :: rest).dropWhile (· != ' ') = ' ' :: rest :=
      dropWhile_middle _ _ _ _ htokAll (by simp)
    have e3 : ((t0 :: tok') ++ ' ' :: rest).takeWhile (· != ' ') = t0 :: tok' :=
      takeWhile_middle _ _ _ _ htokAll (by simp)
    have e1' : line.data.dropWhile (· == ' ') = (t0 :: tok') ++ ' ' :: rest := e1
    have e2' : (t0 :: (tok' ++ ' ' :: rest)).dropWhile (· != ' ') = ' ' :: rest := e2
    have e3' : (t0 :: (tok' ++ ' ' :: rest)).takeWhile (· != ' ') = t0 :: tok' := e3
    simp [cockpit_auth_parse_authorization_type, parse_authorization_type_value, hlk,
      e1, e1', e2', e3']

/-- Claim C9 witness: the type parser applied to a concrete header map with
leading spaces and mixed case. -/
theorem cockpit_auth_parse_authorization_type_claim_witness :
    (cockpit_auth_parse_authorization_type [("Authorization", "  BaSiC  xyz")]).1 =
      [("Authorization", "  BaSiC  xyz")] ∧
    (cockpit_auth_parse_authorization_type [("Authorization", "  BaSiC  xyz")]).2 =
      some "basic" := by
  have h := cockpit_auth_parse_authorization_type_claim [("Authorization", "  BaSiC  xyz")]
  refine ⟨h.1, ?_⟩
  have h2 := h.2 "  BaSiC  xyz" [' ', ' '] "BaSiC".toList (' ' :: "xyz".toList)
    (by decide) (by decide) (by decide) (by decide) (by decide)
  rw [h2]
  decide

/-! Claim C7: cockpit_auth_parse_authorization removes exactly the
Authorization key, fails exactly on absence, missing space delimiter or
base64 failure, and otherwise returns the payload after the type token and
the spaces that follow it. -/

/-- Claim C7: the payload extractor leaves Authorization absent in the
returned table while every other key keeps its value; it returns nothing
when the header is absent, when no space delimiter follows the type token,
or when base64 decoding was requested and fails; otherwise it returns the
payload bytes after the token and the following spaces (decoded when
requested).  The last two conjuncts characterise the payload locator on
decomposed header values. -/
theorem cockpit_auth_parse_authorization_claim (headers : Headers) (d : Bool) :
    hLookup (cockpit_auth_parse_authorization headers d).1 "Authorization" = none ∧
    (∀ k, k ≠ "Authorization" →
      hLookup (cockpit_auth_parse_authorization headers d).1 k = hLookup headers k) ∧
    (hLookup headers "Authorization" = none →
      cockpit_auth_parse_authorization headers d = (headers, none)) ∧
    (∀ line, hLookup headers "Authorization" = some line →
      authContents line.toList = none →
      (cockpit_auth_parse_authorization headers d).2 = none) ∧
    (∀ line cts, hLookup headers "Authorization" = some line →
      authContents line.toList = some cts →
      (cockpit_auth_parse_authorization headers false).2 = some (cts.map Char.toNat) ∧
      (cockpit_auth_parse_authorization headers true).2 = base64DecodeList cts) ∧
    (∀ line sp tok sp2 pay, hLookup headers "Authorization" = some line →
      line.toList = sp ++ tok ++ sp2 ++ pay →
      (∀ c ∈ sp, c = ' ') → tok ≠ [] → (∀ c ∈ tok, c ≠ ' ') →
      sp2 ≠ [] → (∀ c ∈ sp2, c = ' ') → (∀ ch tl, pay = ch :: tl → ch ≠ ' ') →
      authContents line.toList = some pay) ∧
    (∀ line sp tok, hLookup headers "Authorization" = some line →
      line.toList = sp ++ tok → (∀ c ∈ sp, c = ' ') → (∀ c ∈ tok, c ≠ ' ') →
      authContents line.toList = none) := by
  refine ⟨?_, ?_, ?_, ?_, ?_, ?_, ?_⟩
  · rcases hl : hLookup headers "Authorization" with _ | line
    · simp [cockpit_auth_parse_authorization, hl]
    · rcases hc : authContents line.toList with _ | cts
      · have hc' : authContents line.data = none := hc
        simp [cockpit_auth_parse_authorization, hl, hc', hLookup_hErase_self]
      · have hc' : authContents line.data = some cts := hc
        cases d <;>
          simp [cockpit_auth_parse_authorization, hl, hc', hLookup_hErase_self]
  · intro k hk
    rcases hl : hLookup headers "Authorization" with _ | line
    · simp [cockpit_auth_parse_authorization, hl]
    · rcases hc : authContents line.toList with _ | cts
      · have hc' : authContents line.data = none := hc
        simp [cockpit_auth_parse_authorization, hl, hc', hLookup_hErase_ne _ _ _ hk]
      · have hc' : authContents line.data = some cts := hc
        cases d <;>
          simp [cockpit_auth_parse_authorization, hl, hc', hLookup_hErase_ne _ _ _ hk]
  · intro h
    simp [cockpit_auth_parse_authorization, h]
  · intro line hlk hc
    have hc' : authContents line.data = none := hc
    simp [cockpit_auth_parse_authorization, hlk, hc']
  · intro line cts hlk hc
    have hc' : authContents line.data = some cts := hc
    constructor <;> simp [cockpit_auth_parse_authorization, hlk, hc']
  · intro line sp tok sp2 pay hlk hdec hsp htok hns hsp2 hsp2all hpay
    cases tok with
    | nil => exact absurd rfl htok
    | cons t0 tok' =>
      cases sp2 with
      | nil => exact absurd rfl hsp2
      | cons s0 sp2' =>
        have hs0 : s0 = ' ' := hsp2all s0 (List.mem_cons_self s0 sp2')
        subst hs0
        have hsp' : ∀ c ∈ sp, (c == ' ') = true := fun c hc => by simp [hsp c hc]
        have hsp2' : ∀ c ∈ sp2', (c == ' ') = true := fun c hc => by
          simp [hsp2all c (List.mem_cons_of_mem _ hc)]
        have ht0 : (t0 == ' ') = false := by
          simpa using hns t0 (List.mem_cons_self t0 tok')
        have htokAll : ∀ c ∈ t0 :: tok', (c != ' ') = true := fun c hc => by
          simpa using hns c hc
        have hpayB : ∀ ch tl, pay = ch :: tl → (ch == ' ') = false := fun ch tl he => by
          simpa using hpay ch tl he
        have e0 : line.toList = sp ++ ((t0 :: tok') ++ ' ' :: (sp2' ++ pay)) := by
          rw [hdec]
          simp [List.append_assoc]
        have e1 : line.toList.dropWhile (· == ' ') = (t0 :: tok') ++ ' ' :: (sp2' ++ pay) := by
          rw [e0, dropWhile_sat_append _ sp _ hsp']
          simp [List.dropWhile_cons, ht0]
        have e2 : ((t0 :: tok') ++ ' ' :: (sp2' ++ pay)).dropWhile (· != ' ') =
            ' ' :: (sp2' ++ pay) :=
          dropWhile_middle _ _ _ _ htokAll (by simp)
        have e3 : (' ' :: (sp2' ++ pay)).dropWhile (· == ' ') = pay := by
          simp only [List.dropWhile_cons, beq_self_eq_true, if_true]
          rw [dropWhile_sat_append _ sp2' pay hsp2']
          exact dropWhile_head_false _ pay hpayB
        have e1' : line.data.dropWhile (· == ' ') = (t0 :: tok') ++ ' ' :: (sp2' ++ pay) := e1
        have e2' : (t0 :: (tok' ++ ' ' :: (sp2' ++ pay))).dropWhile (· != ' ') =
            ' ' :: (sp2' ++ pay) := e2
        simp [authContents, e1, e1', e2', e3]
  · intro line sp tok hlk hdec hsp hns
    have hsp' : ∀ c ∈ sp, (c == ' ') = true := fun c hc => by simp [hsp c hc]
    have htokB : ∀ ch tl, tok = ch :: tl → (ch == ' ') = false := fun ch tl he => by
      have : ch ∈ tok := he ▸ List.mem_cons_self ch tl
      simpa using hns ch this
    have htokAll : ∀ c ∈ tok, (c != ' ') = true := fun c hc => by simpa using hns c hc
    have e1 : line.toList.dropWhile (· == ' ') = tok := by
      rw [hdec, dropWhile_sat_append _ sp _ hsp']
      exact dropWhile_head_false _ tok htokB
    have e2 : tok.dropWhile (· != ' ') = [] := dropWhile_sat_nil _ tok htokAll
    have e1' : line.data.dropWhile (· == ' ') = tok := e1
    simp [authContents, e1, e1', e2]

/-- Claim C7 witness: the extractor applied to a concrete header map, with
frame, payload and decoding checked on the result. -/
theorem cockpit_auth_parse_authorization_claim_witness :
    hLookup (cockpit_auth_parse_authorization
        [("Authorization", "Basic  QUJD"), ("Host", "h")] true).1 "Authorization" = none ∧
    hLookup (cockpit_auth_parse_authorization
        [("Authorization", "Basic  QUJD"), ("Host", "h")] true).1 "Host" = some "h" ∧
    (cockpit_auth_parse_authorization
        [("Authorization", "Basic  QUJD"), ("Host", "h")] true).2 = some [65, 66, 67] := by
  have h := cockpit_auth_parse_authorization_claim
    [("Authorization", "Basic  QUJD"), ("Host", "h")] true
  refine ⟨h.1, ?_, ?_⟩
  · rw [h.2.1 "Host" (by decide)]
    decide
  · have h5 := (h.2.2.2.2.1 "Basic  QUJD" "QUJD".toList (by decide) (by decide)).2
    rw [h5]
    decide

/-! Claim C8: the path-to-application parser.  The claim as stated fails on
paths whose first segment is "cockpit+" with an empty suffix followed by a
slash: the C code only checks that some character follows the '+', so
"/cockpit+/foo" parses to "cockpit+", not "cockpit". -/

/-- Claim C8 counterexample: the first segment of "/cockpit+/foo" is
"cockpit+", whose suffix after "cockpit+" is empty, so the claim demands
"cockpit"; the code returns the segment "cockpit+" itself. -/
theorem cockpit_auth_parse_application_claim_counterexample :
    cockpit_auth_parse_application "/cockpit+/foo" = some "cockpit+" ∧
    cockpit_auth_parse_application "/cockpit+/foo" ≠ some "cockpit" := by
  decide

/-- Claim C8 (amended): for every path beginning with '/', the parsed
application is the first path segment whenever the remainder after the '/'
starts with "cockpit+" and has at least one further character (so the
suffix may be empty when a slash follows immediately), and the literal
"cockpit" otherwise; in particular "/cockpit+foo/..." yields "cockpit+foo"
and a path whose remainder does not start with "cockpit+" followed by some
character yields "cockpit". -/
theorem cockpit_auth_parse_application_amended (path : String) (p : List Char)
    (hp : path.toList = '/' :: p) :
    ((p.take 8 = "cockpit+".toList ∧ 8 < p.length) →
      cockpit_auth_parse_application path = some (String.mk (p.takeWhile (· != '/')))) ∧
    (¬(p.take 8 = "cockpit+".toList ∧ 8 < p.length) →
      cockpit_auth_parse_application path = some "cockpit") := by
  have hp' : path.data = '/' :: p := hp
  constructor <;> intro hc
  · simp [cockpit_auth_parse_application, auth_parse_application, hp', hc]
  · simp [cockpit_auth_parse_application, auth_parse_application, hp']
    intro h1 h2
    exact absurd ⟨h1, h2⟩ hc

/-- Claim C8 witness: the amended theorem applied to the two example paths
of the claim and to the empty-suffix forms. -/
theorem cockpit_auth_parse_application_amended_witness :
    cockpit_auth_parse_application "/cockpit+foo/bar" = some "cockpit+foo" ∧
    cockpit_auth_parse_application "/x/y" = some "cockpit" ∧
    cockpit_auth_parse_application "/cockpit+" = some "cockpit" := by
  refine ⟨?_, ?_, ?_⟩
  · have h := (cockpit_auth_parse_application_amended "/cockpit+foo/bar"
      "cockpit+foo/bar".toList (by decide)).1 (by decide)
    rw [h]
    decide
  · exact (cockpit_auth_parse_application_amended "/x/y" "x/y".toList (by decide)).2
      (by decide)
  · exact (cockpit_auth_parse_application_amended "/cockpit+" "cockpit+".toList
      (by decide)).2 (by decide)

/-! Claim C5: parse_cockpit_spawn_results.  The claim as stated fails for
the error string "authentication-unavailable": it is neither
permission-denied nor authentication-failed, so the claim demands Failed,
but the code maps it to AuthenticationFailed (with either auth type). -/

/-- Claim C5 counterexample: a reply whose error is
authentication-unavailable with auth type basic yields AuthenticationFailed
rather than the Failed kind the claim demands for every other error string. -/
theorem parse_cockpit_spawn_results_claim_counterexample :
    (parse_cockpit_spawn_results "basic" false
      (HelperResponse.ok
        { error := JMember.str "authentication-unavailable", message := JMember.str "oops",
          prompt := JMember.absent, user := JMember.absent })).1 =
      AuthResult.authenticationFailed "Authentication failed" ∧
    ((parse_cockpit_spawn_results "basic" false
      (HelperResponse.ok
        { error := JMember.str "authentication-unavailable", message := JMember.str "oops",
          prompt := JMember.absent, user := JMember.absent })).1).isFailed = false := by
  decide

/-- Claim C5 (amended): for replies without a prompt field, an unparseable
or absent result yields InvalidData; error permission-denied yields
PermissionDenied; authentication-failed yields AuthenticationFailed;
authentication-unavailable also yields AuthenticationFailed, and with auth
type negotiate it additionally sets the sticky gssapi_not_avail flag, so a
later negotiate attempt that produces no payload skips spawning the
helper; any other error string yields Failed carrying the error and
message. -/
theorem parse_cockpit_spawn_results_amended (ty : String) (g : Bool) (r : HelperResult)
    (headers : Headers) (d : Bool) :
    (parse_cockpit_spawn_results ty g HelperResponse.noData =
      (AuthResult.invalidData "Authentication failed: no results", g)) ∧
    (parse_cockpit_spawn_results ty g HelperResponse.parseFail =
      (AuthResult.invalidData "Authentication failed: no results", g)) ∧
    (parse_cockpit_spawn_results ty g HelperResponse.notUtf8 =
      (AuthResult.invalidData "Login user name is not UTF8 encoded", g)) ∧
    (r.prompt = JMember.absent → r.message ≠ JMember.notString →
      r.error = JMember.str "permission-denied" →
      parse_cockpit_spawn_results ty g (HelperResponse.ok r) =
        (AuthResult.permissionDenied "Permission denied", g)) ∧
    (r.prompt = JMember.absent → r.message ≠ JMember.notString →
      r.error = JMember.str "authentication-failed" →
      parse_cockpit_spawn_results ty g (HelperResponse.ok r) =
        (AuthResult.authenticationFailed "Authentication failed", g)) ∧
    (r.prompt = JMember.absent → r.message ≠ JMember.notString →
      r.error = JMember.str "authentication-unavailable" → ty ≠ "negotiate" →
      parse_cockpit_spawn_results ty g (HelperResponse.ok r) =
        (AuthResult.authenticationFailed "Authentication failed", g)) ∧
    (r.prompt = JMember.absent → r.message ≠ JMember.notString →
      r.error = JMember.str "authentication-unavailable" → ty = "negotiate" →
      parse_cockpit_spawn_results ty g (HelperResponse.ok r) =
        (AuthResult.authenticationFailed "Negotiate authentication not available", true)) ∧
    (∀ e, r.prompt = JMember.absent → r.message ≠ JMember.notString →
      r.error = JMember.str e → e ≠ "permission-denied" → e ≠ "authentication-failed" →
      e ≠ "authentication-unavailable" →
      parse_cockpit_spawn_results ty g (HelperResponse.ok r) =
        (AuthResult.failed
          ("Authentication failed: " ++ e ++ ": " ++ jmemberString r.message), g)) ∧
    ((cockpit_auth_parse_authorization headers d).2 = none →
      (spawn_login_input true "negotiate" headers d).2 = none) := by
  refine ⟨rfl, rfl, rfl, ?_, ?_, ?_, ?_, ?_, ?_⟩
  · intro hp hm he
    simp [parse_cockpit_spawn_results, hp, hm, he]
  · intro hp hm he
    simp [parse_cockpit_spawn_results, hp, hm, he]
  · intro hp hm he hty
    simp [parse_cockpit_spawn_results, hp, hm, he, hty]
  · intro hp hm he hty
    simp [parse_cockpit_spawn_results, hp, hm, he, hty]
  · intro e hp hm he h1 h2 h3
    simp [parse_cockpit_spawn_results, hp, hm, he, h1, h2, h3]
  · intro h
    simp [spawn_login_input, h]

/-- Claim C5 witness: the amended theorem applied to concrete replies, one
per error mapping, and to a negotiate attempt with the sticky flag set and
no Authorization header. -/
theorem parse_cockpit_spawn_results_amended_witness :
    parse_cockpit_spawn_results "basic" false
      (HelperResponse.ok
        { error := JMember.str "permission-denied", message := JMember.str "m",
          prompt := JMember.absent, user := JMember.absent }) =
      (AuthResult.permissionDenied "Permission denied", false) ∧
    parse_cockpit_spawn_results "basic" false
      (HelperResponse.ok
        { error := JMember.str "authentication-failed", message := JMember.str "m",
          prompt := JMember.absent, user := JMember.absent }) =
      (AuthResult.authenticationFailed "Authentication failed", false) ∧
    parse_cockpit_spawn_results "negotiate" false
      (HelperResponse.ok
        { error := JMember.str "authentication-unavailable", message := JMember.str "m",
          prompt := JMember.absent, user := JMember.absent }) =
      (AuthResult.authenticationFailed "Negotiate authentication not available", true) ∧
    parse_cockpit_spawn_results "basic" false
      (HelperResponse.ok
        { error := JMember.str "unknown-problem", message := JMember.str "m",
          prompt := JMember.absent, user := JMember.absent }) =
      (AuthResult.failed "Authentication failed: unknown-problem: m", false) ∧
    (spawn_login_input true "negotiate" [("Host", "h")] true).2 = none := by
  refine ⟨?_, ?_, ?_, ?_, ?_⟩
  · exact (parse_cockpit_spawn_results_amended "basic" false _ [] true).2.2.2.1
      rfl (by decide) rfl
  · exact (parse_cockpit_spawn_results_amended "basic" false _ [] true).2.2.2.2.1
      rfl (by decide) rfl
  · exact (parse_cockpit_spawn_results_amended "negotiate" false _ [] true).2.2.2.2.2.2.1
      rfl (by decide) rfl rfl
  · have h := (parse_cockpit_spawn_results_amended "basic" false
      { error := JMember.str "unknown-problem", message := JMember.str "m",
        prompt := JMember.absent, user := JMember.absent } [] true).2.2.2.2.2.2.2.1
      "unknown-problem" rfl (by decide) rfl (by decide) (by decide) (by decide)
    rw [h]
    decide
  · exact (parse_cockpit_spawn_results_amended "basic" false
      { error := JMember.absent, message := JMember.absent, prompt := JMember.absent,
        user := JMember.absent } [("Host", "h")] true).2.2.2.2.2.2.2.2 (by decide)

/-! Claims C6 and C10: the resume dispatch cockpit_auth_resume_async. -/

/-- Shared lemma: with a well-shaped resume token naming a pending id whose
payload is empty or not valid base64, the dispatch removes the id from the
pending table and fails with the Invalid-resume-token error. -/
theorem resume_bad_payload_aux (self : CockpitAuth) (headers : Headers)
    (h a i p : String) (ad : AuthData)
    (hlk : hLookup headers "Authorization" = some h)
    (hs : g_strsplit h 3 = [a, i, p])
    (hpend : hLookup self.authentication_pending i = some ad)
    (hdec : base64Decode p = none ∨ base64Decode p = some []) :
    cockpit_auth_resume_async self headers =
      ({ self with authentication_pending := hErase self.authentication_pending i },
        ResumeOutcome.invalidToken) := by
  rcases hdec with hd | hd <;> simp [cockpit_auth_resume_async, hlk, hs, hpend, hd]

/-- Claim C6: a resume attempt fails with the Invalid-resume-token error
when the Authorization value is absent or does not split into exactly three
parts, when the id is unknown, or when the payload is empty or not valid
base64; on success the id is removed from the pending table, the decoded
payload is fed into the dialogue's auth pipe, and the dialogue's method tag
is preserved for login_finish. -/
theorem cockpit_auth_resume_async_claim (self : CockpitAuth) (headers : Headers) :
    (hLookup headers "Authorization" = none →
      cockpit_auth_resume_async self headers = (self, ResumeOutcome.invalidToken)) ∧
    (∀ h, hLookup headers "Authorization" = some h → (g_strsplit h 3).length ≠ 3 →
      cockpit_auth_resume_async self headers = (self, ResumeOutcome.invalidToken)) ∧
    (∀ h a i p, hLookup headers "Authorization" = some h → g_strsplit h 3 = [a, i, p] →
      hLookup self.authentication_pending i = none →
      cockpit_auth_resume_async self headers = (self, ResumeOutcome.invalidToken)) ∧
    (∀ h a i p ad, hLookup headers "Authorization" = some h → g_strsplit h 3 = [a, i, p] →
      hLookup self.authentication_pending i = some ad →
      (base64Decode p = none ∨ base64Decode p = some []) →
      cockpit_auth_resume_async self headers =
        ({ self with authentication_pending := hErase self.authentication_pending i },
          ResumeOutcome.invalidToken)) ∧
    (∀ h a i p ad bytes, hLookup headers "Authorization" = some h →
      g_strsplit h 3 = [a, i, p] →
      hLookup self.authentication_pending i = some ad →
      base64Decode p = some bytes → bytes ≠ [] →
      cockpit_auth_resume_async self headers =
        ({ self with authentication_pending := hErase self.authentication_pending i },
          ResumeOutcome.resumed ad.tag bytes)) := by
  refine ⟨?_, ?_, ?_, ?_, ?_⟩
  · intro h
    simp [cockpit_auth_resume_async, h]
  · intro h hlk hlen
    rcases hs : g_strsplit h 3 with _ | ⟨a, _ | ⟨b, _ | ⟨c, _ | ⟨e, t⟩⟩⟩⟩
    · simp [cockpit_auth_resume_async, hlk, hs]
    · simp [cockpit_auth_resume_async, hlk, hs]
    · simp [cockpit_auth_resume_async, hlk, hs]
    · rw [hs] at hlen
      simp at hlen
    · simp [cockpit_auth_resume_async, hlk, hs]
  · intro h a i p hlk hs hpend
    simp [cockpit_auth_resume_async, hlk, hs, hpend]
  · intro h a i p ad hlk hs hpend hdec
    exact resume_bad_payload_aux self headers h a i p ad hlk hs hpend hdec
  · intro h a i p ad bytes hlk hs hpend hdec hbytes
    have hlen : ¬ bytes.length < 1 := by
      cases bytes with
      | nil => exact absurd rfl hbytes
      | cons x xs => simp
    simp [cockpit_auth_resume_async, hlk, hs, hpend, hdec, hlen]

/-- Claim C6 witness: the dispatch applied to a concrete state with one
pending spawn dialogue, a valid token resuming it and an unknown-id token
failing. -/
theorem cockpit_auth_resume_async_claim_witness :
    cockpit_auth_resume_async resumePendingExample
      [("Authorization", "X-Login-Reply id1 QUJD")] =
      ({ resumePendingExample with authentication_pending := [] },
        ResumeOutcome.resumed MethodTag.spawn [65, 66, 67]) ∧
    cockpit_auth_resume_async resumePendingExample
      [("Authorization", "X-Login-Reply other QUJD")] =
      (resumePendingExample, ResumeOutcome.invalidToken) ∧
    cockpit_auth_resume_async resumePendingExample [("Authorization", "X-Login-Reply")] =
      (resumePendingExample, ResumeOutcome.invalidToken) := by
  refine ⟨?_, ?_, ?_⟩
  · have h := (cockpit_auth_resume_async_claim resumePendingExample
      [("Authorization", "X-Login-Reply id1 QUJD")]).2.2.2.2 "X-Login-Reply id1 QUJD"
      "X-Login-Reply" "id1" "QUJD" { id := "id1", tag := MethodTag.spawn } [65, 66, 67]
      (by decide) (by decide) (by decide) (by decide) (by decide)
    exact h.trans (by decide)
  · exact (cockpit_auth_resume_async_claim resumePendingExample
      [("Authorization", "X-Login-Reply other QUJD")]).2.2.1 "X-Login-Reply other QUJD"
      "X-Login-Reply" "other" "QUJD" (by decide) (by decide) (by decide)
  · exact (cockpit_auth_resume_async_claim resumePendingExample
      [("Authorization", "X-Login-Reply")]).2.1 "X-Login-Reply" (by decide) (by decide)

/-- Claim C10: with a well-shaped token naming a pending id, the id is
removed from the pending table before the payload is base64-decoded: when
the payload is empty or invalid the attempt fails with the
Invalid-resume-token error while the dialogue is already evicted, the id no
longer resolves, and a second resume attempt with the same token also fails
without restoring the pending state. -/
theorem cockpit_auth_resume_async_evict_claim (self : CockpitAuth) (headers : Headers)
    (h a i p : String) (ad : AuthData)
    (hlk : hLookup headers "Authorization" = some h)
    (hs : g_strsplit h 3 = [a, i, p])
    (hpend : hLookup self.authentication_pending i = some ad)
    (hdec : base64Decode p = none ∨ base64Decode p = some []) :
    cockpit_auth_resume_async self headers =
      ({ self with authentication_pending := hErase self.authentication_pending i },
        ResumeOutcome.invalidToken) ∧
    hLookup (hErase self.authentication_pending i) i = none ∧
    cockpit_auth_resume_async
        { self with authentication_pending := hErase self.authentication_pending i }
        headers =
      ({ self with authentication_pending := hErase self.authentication_pending i },
        ResumeOutcome.invalidToken) := by
  refine ⟨resume_bad_payload_aux self headers h a i p ad hlk hs hpend hdec, ?_, ?_⟩
  · exact hLookup_hErase_self _ _
  · simp [cockpit_auth_resume_async, hlk, hs, hLookup_hErase_self]

/-- Claim C10 witness: the eviction theorem applied to a concrete pending
table and a token whose payload is not valid base64. -/
theorem cockpit_auth_resume_async_evict_claim_witness :
    cockpit_auth_resume_async resumePendingExample
      [("Authorization", "X-Login-Reply id1 !!")] =
      ({ resumePendingExample with authentication_pending := [] },
        ResumeOutcome.invalidToken) ∧
    cockpit_auth_resume_async { resumePendingExample with authentication_pending := [] }
      [("Authorization", "X-Login-Reply id1 !!")] =
      ({ resumePendingExample with authentication_pending := [] },
        ResumeOutcome.invalidToken) := by
  have h := cockpit_auth_resume_async_evict_claim resumePendingExample
    [("Authorization", "X-Login-Reply id1 !!")] "X-Login-Reply id1 !!" "X-Login-Reply"
    "id1" "!!" { id := "id1", tag := MethodTag.spawn } (by decide) (by decide) (by decide)
    (Or.inl (by decide))
  exact ⟨h.1.trans (by decide), h.2.2.trans (by decide)⟩
